import Mathlib

/-!
Formal model of the `mighty` video-browsing UI core:

* the paginated search/feed controller of `src/screens/home.tsx`
  (state variables `videos`, `loading`, `loadingMore`, `error`,
  `searchQuery`, `pageToken`, the async `fetchVideos`, `handleSearch`,
  `handleScroll`, and the render-time choice between the loading view,
  the full-screen error view and the feed view);

* the hover-preview state machine of `src/components/VideoCard.tsx`
  (state variables `isHovered`, `showPopup`, `popupVisible`, `popupRect`,
  the refs `hoverTimeoutRef` and `animationTimeoutRef`, the anonymous
  200 ms close timeout armed by `handlePortalLeave`, and the unmount
  cleanup effect).

The async `fetchVideos` is split at its single `await` into a request-issue
step and a response-apply step; an execution is a state plus the list of
outstanding requests, and interleavings of user events and response
arrivals are explicit event traces.  Timers of the hover machine are kept
as absolute fire times in the state, and `advance` fires every due timer
in fire-time order, exactly as the event loop would.
-/

namespace Mighty

/-- `YouTubeVideo` of `src/services/youtubeApi.ts`. -/
structure Video where
  id : String
  title : String
  channelTitle : String
  channelId : String
  thumbnailUrl : String
  publishedAt : String
  description : String
deriving Repr, DecidableEq

/-- `SearchResult` of `src/services/youtubeApi.ts`: one page of results plus
the continuation token (`data.nextPageToken || null`, so an empty-string
token is normalised to `none` by the service layer). -/
structure SearchResult where
  items : List Video
  nextPageToken : Option String
deriving Repr, DecidableEq

/-- The outbound request `searchVideos(query, maxResults, pageToken)`. -/
structure Request where
  query : String
  maxResults : Nat
  pageToken : Option String
deriving Repr, DecidableEq

/-- The screen state of `Home` (`src/screens/home.tsx`):
`videos`, `loading`, `loadingMore`, `error`, `searchQuery`, `pageToken`. -/
structure FeedState where
  videos : List Video
  loading : Bool
  loadingMore : Bool
  error : Option String
  searchQuery : String
  pageToken : Option String
deriving Repr, DecidableEq

/-- JavaScript truthiness of a `string | null` value: `null` and the empty
string are falsy.  Used where the code tests `pageToken` directly. -/
def optTruthy : Option String → Bool
  | none => false
  | some t => !(t == "")

/-- Whitespace as stripped by JavaScript's `String.prototype.trim`
(the characters relevant here: space, tab, and line terminators). -/
def isWsChar (c : Char) : Bool :=
  c = ' ' || c = '\t' || c = '\n' || c = '\r' || c = '\x0b' || c = '\x0c'

/-- JavaScript's `query.trim()`: strip whitespace from both ends. -/
def jsTrim (s : String) : String :=
  ⟨((s.data.dropWhile isWsChar).reverse.dropWhile isWsChar).reverse⟩

/-- The part of `fetchVideos(query, isLoadMore)` that runs before its
`await`: sets the appropriate loading flag, resets the page token on a
fresh search, clears the error, and issues
`searchVideos(query, 20, isLoadMore ? pageToken : null)`. -/
def fetchStart (query : String) (isLoadMore : Bool) (s : FeedState) :
    FeedState × Request :=
  let s1 :=
    if isLoadMore then { s with loadingMore := true }
    else { s with loading := true, pageToken := none }
  let s2 := { s1 with error := none }
  (s2, ⟨query, 20, if isLoadMore then s.pageToken else none⟩)

/-- The continuation of `fetchVideos` when the awaited `searchVideos`
resolves: append or replace `videos`, store `nextPageToken`, and run the
`finally` block clearing both loading flags. -/
def fetchSuccess (isLoadMore : Bool) (r : SearchResult) (s : FeedState) :
    FeedState :=
  let s1 :=
    if isLoadMore then { s with videos := s.videos ++ r.items }
    else { s with videos := r.items }
  { s1 with pageToken := r.nextPageToken, loading := false,
            loadingMore := false }

/-- The `catch` branch of `fetchVideos` plus its `finally` block: set the
error message and clear both loading flags.  `videos` and `pageToken` are
untouched. -/
def fetchFailure (s : FeedState) : FeedState :=
  { s with error := some "Failed to load videos. Please try again.",
           loading := false, loadingMore := false }

/-- `isCloseToBottom` of `handleScroll`:
`layoutMeasurement.height + contentOffset.y >= contentSize.height - paddingToBottom`
with `paddingToBottom = 20`. -/
def isCloseToBottom (layoutHeight contentOffsetY contentHeight : ℚ) : Bool :=
  decide (contentHeight - 20 ≤ layoutHeight + contentOffsetY)

/-- The guard of `handleScroll`:
`isCloseToBottom && !loadingMore && !loading && pageToken`. -/
def scrollTriggers (layoutHeight contentOffsetY contentHeight : ℚ)
    (s : FeedState) : Bool :=
  isCloseToBottom layoutHeight contentOffsetY contentHeight &&
    !s.loadingMore && !s.loading && optTruthy s.pageToken

/-- The three top-level renders of `Home`: the spinner when `loading`, the
full-screen error view when `error` is set, otherwise the feed (search bar
plus scrollable grid). -/
inductive ViewKind
  | loadingView
  | errorView
  | feedView
deriving Repr, DecidableEq

/-- The render-time dispatch of `Home`: `if (loading) … if (error) …`. -/
def viewKind (s : FeedState) : ViewKind :=
  if s.loading then .loadingView
  else if s.error.isSome then .errorView
  else .feedView

/-- The spec's `phase` enum, derived from the code's flag variables:
`loading` is the initial load, `loadingMore` the pagination load, a set
`error` (outside a load) is the errored phase, anything else is ready. -/
inductive FeedPhase
  | Idle
  | InitialLoading
  | Ready
  | LoadingMore
  | Errored
deriving Repr, DecidableEq

/-- Map the code's state onto the spec's `phase`. -/
def feedPhase (s : FeedState) : FeedPhase :=
  if s.loading then .InitialLoading
  else if s.loadingMore then .LoadingMore
  else if s.error.isSome then .Errored
  else .Ready

/-- An execution of the screen: the current state plus the outstanding
`searchVideos` calls, each tagged with the `isLoadMore` flag of the
`fetchVideos` invocation that issued it.  The code stores no generation
number and never aborts a request, so every outstanding continuation runs
when its response arrives. -/
structure FeedExec where
  state : FeedState
  pending : List (Request × Bool)
deriving Repr, DecidableEq

/-- Externally visible events of the screen: editing the search field
(`onChangeText`), submitting the search (`handleSearch`), a scroll
notification (`handleScroll`), and the arrival of the response to the
`i`-th outstanding request. -/
inductive FeedEvent
  | setQueryText (q : String)
  | submitSearch
  | scroll (layoutHeight contentOffsetY contentHeight : ℚ)
  | respondSuccess (i : Nat) (r : SearchResult)
  | respondFailure (i : Nat)
deriving Repr, DecidableEq

/-- One event of the screen's event loop.  `submitSearch` is rejected when
the trimmed query is empty (`if (searchQuery.trim())`); `scroll` issues a
load-more fetch exactly when `scrollTriggers` holds; a response applies the
continuation of the request it belongs to and removes it from the
outstanding list. -/
def feedStep (e : FeedEvent) (ex : FeedExec) : FeedExec :=
  match e with
  | .setQueryText q =>
      { ex with state := { ex.state with searchQuery := q } }
  | .submitSearch =>
      if jsTrim ex.state.searchQuery == "" then ex
      else
        let out := fetchStart ex.state.searchQuery false ex.state
        { state := out.1, pending := ex.pending ++ [(out.2, false)] }
  | .scroll lh y ch =>
      if scrollTriggers lh y ch ex.state then
        let out := fetchStart ex.state.searchQuery true ex.state
        { state := out.1, pending := ex.pending ++ [(out.2, true)] }
      else ex
  | .respondSuccess i r =>
      match ex.pending[i]? with
      | some p =>
          { state := fetchSuccess p.2 r ex.state,
            pending := ex.pending.eraseIdx i }
      | none => ex
  | .respondFailure i =>
      match ex.pending[i]? with
      | some _ =>
          { state := fetchFailure ex.state,
            pending := ex.pending.eraseIdx i }
      | none => ex

/-- Run a trace of screen events. -/
def runFeed (ex : FeedExec) : List FeedEvent → FeedExec
  | [] => ex
  | e :: rest => runFeed (feedStep e ex) rest

/-- A DOM rectangle as read by `getBoundingClientRect` (top, left, width are
all the card component uses). -/
structure Rect where
  top : ℚ
  left : ℚ
  width : ℚ
deriving Repr, DecidableEq

/-- Per-card environment of the hover machine: the measurement the card's
wrapper would return at show-timer fire time (`none` models an unmounted or
unmeasurable element), and the window scroll offsets added to it. -/
structure HoverCfg where
  geom : Option Rect
  scrollX : ℚ
  scrollY : ℚ
deriving Repr, DecidableEq

/-- State of one `VideoCard` (`src/components/VideoCard.tsx`): the three
boolean flags, the captured popup position, and the pending timers held as
absolute fire times.  `hoverTimeout` is `hoverTimeoutRef` (the 1.8 s show
delay), `animationTimeout` is `animationTimeoutRef` (the 10 ms fade-in
delay), and `closeTimeouts` are the anonymous 200 ms timeouts armed by
`handlePortalLeave` — the code stores their handles in no ref, so several
can be pending at once and none is cancelable. -/
structure HoverState where
  isHovered : Bool
  showPopup : Bool
  popupVisible : Bool
  popupRect : Option Rect
  hoverTimeout : Option Nat
  animationTimeout : Option Nat
  closeTimeouts : List Nat
deriving Repr, DecidableEq

/-- The freshly mounted card: all flags false, no geometry, no timers. -/
def hoverInit : HoverState :=
  ⟨false, false, false, none, none, none, []⟩

/-- `handleHoverIn` at time `t`: set `isHovered`, clear any existing show
timeout and arm a new one 1800 ms out. -/
def handleHoverIn (t : Nat) (s : HoverState) : HoverState :=
  { s with isHovered := true, hoverTimeout := some (t + 1800) }

/-- `handleHoverOut`: early-returns when `showPopup` is set; otherwise
clears the show timeout and resets `isHovered`, `showPopup`, `popupRect`
(`popupVisible` and `animationTimeoutRef` are not touched by this
handler). -/
def handleHoverOut (s : HoverState) : HoverState :=
  if s.showPopup then s
  else
    { s with hoverTimeout := none, isHovered := false, showPopup := false,
             popupRect := none }

/-- The portal's `onMouseEnter`: re-asserts `isHovered`, `showPopup` and
`popupVisible`.  It cancels nothing — in particular it cannot touch the
anonymous 200 ms close timeouts. -/
def handlePortalEnter (s : HoverState) : HoverState :=
  { s with isHovered := true, showPopup := true, popupVisible := true }

/-- `handlePortalLeave` at time `t`: clears the show and animation
timeouts, resets `isHovered` and `popupVisible`, and arms an anonymous
200 ms timeout that will clear `showPopup` and `popupRect`. -/
def handlePortalLeave (t : Nat) (s : HoverState) : HoverState :=
  { s with hoverTimeout := none, animationTimeout := none,
           isHovered := false, popupVisible := false,
           closeTimeouts := s.closeTimeouts ++ [t + 200] }

/-- The unmount cleanup effect: clears `hoverTimeoutRef` and
`animationTimeoutRef`.  The anonymous close timeouts have no stored handle
and are not cleared. -/
def unmountCleanup (s : HoverState) : HoverState :=
  { s with hoverTimeout := none, animationTimeout := none }

/-- Body of the 1800 ms show timeout, firing at time `f`: measure the
wrapper; on success capture `popupRect` (adding the window scroll), set
`showPopup` and arm the 10 ms animation timeout; on failure do nothing
visible.  Either way the timeout itself is spent. -/
def fireShow (cfg : HoverCfg) (f : Nat) (s : HoverState) : HoverState :=
  match cfg.geom with
  | some rect =>
      { s with
        popupRect := some ⟨rect.top + cfg.scrollY, rect.left + cfg.scrollX,
                           rect.width⟩,
        showPopup := true,
        hoverTimeout := none,
        animationTimeout := some (f + 10) }
  | none => { s with hoverTimeout := none }

/-- Body of the 10 ms animation timeout: `setPopupVisible(true)`. -/
def fireAnimation (s : HoverState) : HoverState :=
  { s with popupVisible := true, animationTimeout := none }

/-- Body of one anonymous 200 ms close timeout with fire time `f`:
`setShowPopup(false); setPopupRect(null)`. -/
def fireClose (f : Nat) (s : HoverState) : HoverState :=
  { s with showPopup := false, popupRect := none,
           closeTimeouts := s.closeTimeouts.erase f }

/-- The kinds of pending timers of one card. -/
inductive TimerKind
  | show
  | fade
  | close
deriving Repr, DecidableEq

/-- All timers due at or before `now`, with their fire times. -/
def dueTimers (now : Nat) (s : HoverState) : List (Nat × TimerKind) :=
  (match s.hoverTimeout with
   | some f => if f ≤ now then [(f, TimerKind.show)] else []
   | none => []) ++
  (match s.animationTimeout with
   | some f => if f ≤ now then [(f, TimerKind.fade)] else []
   | none => []) ++
  (s.closeTimeouts.filter (· ≤ now)).map (fun f => (f, TimerKind.close))

/-- First timer with minimal fire time, if any. -/
def pickEarliest : List (Nat × TimerKind) → Option (Nat × TimerKind)
  | [] => none
  | x :: xs => some (xs.foldl (fun a b => if b.1 < a.1 then b else a) x)

/-- Run the body of one timer. -/
def fireTimer (cfg : HoverCfg) (k : TimerKind) (f : Nat) (s : HoverState) :
    HoverState :=
  match k with
  | .show => fireShow cfg f s
  | .fade => fireAnimation s
  | .close => fireClose f s

/-- Fire the earliest due timer, or report that none is due. -/
def fireOne (cfg : HoverCfg) (now : Nat) (s : HoverState) :
    Option HoverState :=
  match pickEarliest (dueTimers now s) with
  | some fk => some (fireTimer cfg fk.2 fk.1 s)
  | none => none

/-- Upper bound on how many timer firings the state can still produce (the
show timer may arm the fade timer, so it weighs two). -/
def timerWeight (s : HoverState) : Nat :=
  (if s.hoverTimeout.isSome then 2 else 0) +
    (if s.animationTimeout.isSome then 1 else 0) + s.closeTimeouts.length

/-- Fuelled loop firing due timers until none remains. -/
def advanceAux (cfg : HoverCfg) (now : Nat) : Nat → HoverState → HoverState
  | 0, s => s
  | fuel + 1, s =>
      match fireOne cfg now s with
      | some s1 => advanceAux cfg now fuel s1
      | none => s

/-- Let the clock reach `now`: fire every due timer in fire-time order. -/
def advance (cfg : HoverCfg) (now : Nat) (s : HoverState) : HoverState :=
  advanceAux cfg now (timerWeight s) s

/-- Pointer events a card receives. -/
inductive HoverEvent
  | hoverIn
  | hoverOut
  | portalEnter
  | portalLeave
deriving Repr, DecidableEq

/-- Dispatch one pointer event at time `t`. -/
def stepEvent (t : Nat) : HoverEvent → HoverState → HoverState
  | .hoverIn => handleHoverIn t
  | .hoverOut => handleHoverOut
  | .portalEnter => handlePortalEnter
  | .portalLeave => handlePortalLeave t

/-- Run a timed trace of pointer events: before each event the clock first
reaches its timestamp, firing due timers. -/
def runHover (cfg : HoverCfg) : HoverState → List (Nat × HoverEvent) → HoverState
  | s, [] => s
  | s, (t, e) :: rest => runHover cfg (stepEvent t e (advance cfg t s)) rest

/-! ### Sample data for concrete runs -/

/-- A first sample video summary. -/
def vidA : Video :=
  ⟨"idA", "Title A", "Channel A", "chanA", "urlA", "2020-01-01T00:00:00Z", "descA"⟩

/-- A second, distinct sample video summary. -/
def vidB : Video :=
  ⟨"idB", "Title B", "Channel B", "chanB", "urlB", "2020-01-02T00:00:00Z", "descB"⟩

/-- A sample response page containing `vidA`. -/
def pageA : SearchResult := ⟨[vidA], some "tokA"⟩

/-- A sample response page containing `vidB`. -/
def pageB : SearchResult := ⟨[vidB], some "tokB"⟩

/-- A ready screen state: both loading flags clear and no error. -/
def readyState (q : String) (v : List Video) (tok : Option String) : FeedState :=
  ⟨v, false, false, none, q, tok⟩

/-- Two overlapping searches: `search("dogs")` issued, query edited to
`"cats"` and submitted while the first request is still in flight, then the
second request's response arrives, then the first's. -/
def staleTrace : List FeedEvent :=
  [FeedEvent.submitSearch, FeedEvent.setQueryText "cats",
   FeedEvent.submitSearch, FeedEvent.respondSuccess 1 pageB,
   FeedEvent.respondSuccess 0 pageA]

/-- A per-card environment whose measurement succeeds. -/
def cfg0 : HoverCfg := ⟨some ⟨100, 50, 320⟩, 0, 0⟩

/-- Hover in, popup shows and becomes visible, pointer leaves the overlay at
t = 2000 ms, then re-enters it at t = 2100 ms — within the 200 ms close
window. -/
def reenterTrace : List (Nat × HoverEvent) :=
  [(0, HoverEvent.hoverIn), (2000, HoverEvent.portalLeave),
   (2100, HoverEvent.portalEnter)]

/-- Hover in, popup shows and becomes visible, pointer leaves the overlay at
t = 2000 ms; the card will be unmounted 50 ms later. -/
def unmountTrace : List (Nat × HoverEvent) :=
  [(0, HoverEvent.hoverIn), (2000, HoverEvent.portalLeave)]

/-- A card state with the popup up and animated in, no timers pending. -/
def shownSample : HoverState :=
  ⟨true, true, true, some ⟨100, 50, 320⟩, none, none, []⟩

/-! ### Helper lemmas -/

/-- The scenario numbers of the spec: a viewport of 800 at offset 1200 is
within 20 units of the bottom of 2010 units of content. -/
theorem closeToBottom_sample : isCloseToBottom 800 1200 2010 = true := by
  simp only [isCloseToBottom, decide_eq_true_eq]
  norm_num

/-! ### Claims -/

/-- C1: the claim requires a response belonging to a superseded query to be
discarded on arrival.  The code tags requests with no generation number:
after `search("dogs")` and then `search("cats")` overlap and the `"cats"`
response arrives first, the stale `"dogs"` response is applied last, so the
final `videos` and `pageToken` are the superseded query's — contradicting
the claim. -/
theorem stale_search_response_is_applied :
    (runFeed ⟨readyState "dogs" [] none, []⟩
        [FeedEvent.submitSearch, FeedEvent.setQueryText "cats",
         FeedEvent.submitSearch]).pending =
      [(⟨"dogs", 20, none⟩, false), (⟨"cats", 20, none⟩, false)] ∧
    (runFeed ⟨readyState "dogs" [] none, []⟩ staleTrace).state.videos =
      pageA.items ∧
    (runFeed ⟨readyState "dogs" [] none, []⟩ staleTrace).state.pageToken =
      pageA.nextPageToken ∧
    pageA.items ≠ pageB.items := by
  refine ⟨rfl, rfl, rfl, by decide⟩

/-- C2 counterexample: the claim says a failed `loadMore()` is never
surfaced as the terminal full-view error state.  Starting from a ready
screen with one loaded item, a scroll-triggered load-more whose fetch fails
sets `error`, and the render dispatch then shows the full-screen error view
(the same terminal view as an initial-search failure), even though the
loaded items are still in state. -/
theorem loadmore_failure_shows_error_view :
    viewKind (runFeed ⟨readyState "dogs" [vidA] (some "tokA"), []⟩
        [FeedEvent.scroll 800 1200 2010, FeedEvent.respondFailure 0]).state =
      ViewKind.errorView ∧
    (runFeed ⟨readyState "dogs" [vidA] (some "tokA"), []⟩
        [FeedEvent.scroll 800 1200 2010, FeedEvent.respondFailure 0]).state.videos =
      [vidA] := by
  simp only [readyState]
  have h : scrollTriggers 800 1200 2010 ⟨[vidA], false, false, none, "dogs",
      some "tokA"⟩ = true := by
    simp only [scrollTriggers, closeToBottom_sample]
    decide
  constructor <;>
    simp [runFeed, feedStep, h, fetchStart, fetchFailure, viewKind]

/-- C2 amended: when the response to an outstanding load-more request
fails, the already-loaded `videos` and the stored `pageToken` are left
unchanged and both loading flags are cleared (so the state-level phase is
back to ready), but the error message is set and the screen therefore
renders the full-view error state; no further load-more is possible until
the error is cleared. -/
theorem loadmore_failure_keeps_items (ex : FeedExec) (i : Nat) (req : Request)
    (h : ex.pending[i]? = some (req, true)) :
    (feedStep (FeedEvent.respondFailure i) ex).state.videos =
      ex.state.videos ∧
    (feedStep (FeedEvent.respondFailure i) ex).state.pageToken =
      ex.state.pageToken ∧
    (feedStep (FeedEvent.respondFailure i) ex).state.loading = false ∧
    (feedStep (FeedEvent.respondFailure i) ex).state.loadingMore = false ∧
    (feedStep (FeedEvent.respondFailure i) ex).state.error =
      some "Failed to load videos. Please try again." ∧
    viewKind (feedStep (FeedEvent.respondFailure i) ex).state =
      ViewKind.errorView := by
  simp [feedStep, h, fetchFailure, viewKind]

/-- C2 witness: a concrete execution with one outstanding load-more request
satisfies the hypothesis of the amended theorem. -/
theorem loadmore_failure_keeps_items_witness :
    (feedStep (FeedEvent.respondFailure 0)
        ⟨readyState "dogs" [vidA] (some "tokA"),
         [(⟨"dogs", 20, some "tokA"⟩, true)]⟩).state.videos =
      [vidA] ∧
    viewKind (feedStep (FeedEvent.respondFailure 0)
        ⟨readyState "dogs" [vidA] (some "tokA"),
         [(⟨"dogs", 20, some "tokA"⟩, true)]⟩).state = ViewKind.errorView := by
  have h := loadmore_failure_keeps_items
    ⟨readyState "dogs" [vidA] (some "tokA"),
     [(⟨"dogs", 20, some "tokA"⟩, true)]⟩ 0 ⟨"dogs", 20, some "tokA"⟩ rfl
  exact ⟨h.1, h.2.2.2.2.2⟩

/-- C6: applying the successful response of an outstanding load-more
request appends the returned page to the existing `videos`, preserving the
old items and their order, and stores the response's continuation token. -/
theorem loadmore_success_appends (ex : FeedExec) (i : Nat) (req : Request)
    (r : SearchResult) (h : ex.pending[i]? = some (req, true)) :
    (feedStep (FeedEvent.respondSuccess i r) ex).state.videos =
      ex.state.videos ++ r.items ∧
    (feedStep (FeedEvent.respondSuccess i r) ex).state.pageToken =
      r.nextPageToken := by
  simp [feedStep, h, fetchSuccess]

/-- C6 witness: appending page B to a screen holding page A's item. -/
theorem loadmore_success_appends_witness :
    (feedStep (FeedEvent.respondSuccess 0 pageB)
        ⟨readyState "dogs" [vidA] (some "tokA"),
         [(⟨"dogs", 20, some "tokA"⟩, true)]⟩).state.videos = [vidA] ++ [vidB] :=
  (loadmore_success_appends
    ⟨readyState "dogs" [vidA] (some "tokA"),
     [(⟨"dogs", 20, some "tokA"⟩, true)]⟩ 0 ⟨"dogs", 20, some "tokA"⟩ pageB
    rfl).1

/-- C7: when the search query is empty after trimming, submitting the
search is a complete no-op — no request is issued and the whole execution
(state and outstanding requests) is unchanged, so no error is surfaced. -/
theorem empty_query_rejected (ex : FeedExec)
    (h : jsTrim ex.state.searchQuery = "") :
    feedStep FeedEvent.submitSearch ex = ex := by
  simp [feedStep, h]

/-- C7 witness: a whitespace-only query is rejected without any change. -/
theorem empty_query_rejected_witness :
    feedStep FeedEvent.submitSearch ⟨readyState "   " [vidA] (some "tokA"), []⟩ =
      ⟨readyState "   " [vidA] (some "tokA"), []⟩ :=
  empty_query_rejected ⟨readyState "   " [vidA] (some "tokA"), []⟩ rfl

/-- C8: while the feed view is mounted (the only situation in which scroll
events are delivered, since the loading and error renders do not mount the
scroll view) and given that the service layer never stores an empty-string
token, a scroll notification triggers a load-more fetch exactly when the
viewport bottom is within 20 units of the content bottom, the phase is
ready, and a cursor is present; the spec's sample numbers satisfy the
threshold; and no scroll can trigger a fetch while a load-more is already
in flight. -/
theorem scroll_trigger_characterisation :
    (∀ (lh y ch : ℚ) (s : FeedState), viewKind s = ViewKind.feedView →
        s.pageToken ≠ some "" →
        (scrollTriggers lh y ch s = true ↔
          (ch - 20 ≤ lh + y ∧ feedPhase s = FeedPhase.Ready ∧
            s.pageToken.isSome = true))) ∧
    ((2010 : ℚ) - 20 ≤ 800 + 1200) ∧
    (∀ (lh y ch : ℚ) (s : FeedState), s.loadingMore = true →
        scrollTriggers lh y ch s = false) := by
  refine ⟨?_, by norm_num, ?_⟩
  · rintro lh y ch ⟨v, ld, lm, er, q, tok⟩ hview htok
    cases ld with
    | true => simp [viewKind] at hview
    | false =>
        cases er with
        | some msg => simp [viewKind] at hview
        | none =>
            cases tok with
            | none =>
                cases lm <;>
                  simp [scrollTriggers, optTruthy, feedPhase, isCloseToBottom]
            | some t =>
                have ht : (t == "") = false :=
                  beq_eq_false_iff_ne.mpr fun hh => htok (by rw [hh])
                cases lm <;>
                  simp [scrollTriggers, optTruthy, feedPhase, isCloseToBottom,
                        ht]
  · intro lh y ch s hlm
    simp [scrollTriggers, hlm]

/-- C8 witness: the spec's scenario numbers on a ready state with a cursor
do trigger the fetch. -/
theorem scroll_trigger_characterisation_witness :
    scrollTriggers 800 1200 2010 (readyState "dogs" [vidA] (some "tokA")) =
      true :=
  (scroll_trigger_characterisation.1 800 1200 2010
      (readyState "dogs" [vidA] (some "tokA")) rfl (by decide)).mpr
    ⟨by norm_num, rfl, rfl⟩

/-- C10: a scroll-triggered load-more uses the live content of the search
input, not the query that produced the stored cursor: after the input is
edited to `q2` without submitting, a near-bottom scroll issues the request
with `q2` and the old cursor, and its successful response is appended to
the old query's items. -/
theorem scroll_loadmore_uses_live_query (v : List Video) (tok q1 q2 : String)
    (r : SearchResult) (lh y ch : ℚ) (htok : tok ≠ "")
    (hclose : isCloseToBottom lh y ch = true) :
    (feedStep (FeedEvent.scroll lh y ch)
        (feedStep (FeedEvent.setQueryText q2)
          ⟨⟨v, false, false, none, q1, some tok⟩, []⟩)).pending =
      [(⟨q2, 20, some tok⟩, true)] ∧
    (feedStep (FeedEvent.scroll lh y ch)
        (feedStep (FeedEvent.setQueryText q2)
          ⟨⟨v, false, false, none, q1, some tok⟩, []⟩)).state.loadingMore =
      true ∧
    (feedStep (FeedEvent.respondSuccess 0 r)
        (feedStep (FeedEvent.scroll lh y ch)
          (feedStep (FeedEvent.setQueryText q2)
            ⟨⟨v, false, false, none, q1, some tok⟩, []⟩))).state.videos =
      v ++ r.items := by
  have ht : (tok == "") = false :=
    beq_eq_false_iff_ne.mpr htok
  have h : scrollTriggers lh y ch ⟨v, false, false, none, q2, some tok⟩ =
      true := by
    simp [scrollTriggers, hclose, optTruthy, ht]
  refine ⟨?_, ?_, ?_⟩ <;> simp [feedStep, h, fetchStart, fetchSuccess]

/-- C10 witness: editing `"dogs"` to `"cats"` and scrolling to the bottom
fetches with `"cats"` and the stored token, appending to the old items. -/
theorem scroll_loadmore_uses_live_query_witness :
    (feedStep (FeedEvent.respondSuccess 0 pageB)
        (feedStep (FeedEvent.scroll 800 1200 2010)
          (feedStep (FeedEvent.setQueryText "cats")
            ⟨⟨[vidA], false, false, none, "dogs", some "tokA"⟩, []⟩))).state.videos =
      [vidA] ++ pageB.items :=
  (scroll_loadmore_uses_live_query [vidA] "tokA" "dogs" "cats" pageB
    800 1200 2010 (by decide) closeToBottom_sample).2.2

/-- A state with no due timer is unchanged by the firing loop, whatever the
fuel. -/
theorem advanceAux_of_fireOne_none (cfg : HoverCfg) (now fuel : Nat)
    (s : HoverState) (h : fireOne cfg now s = none) :
    advanceAux cfg now fuel s = s := by
  cases fuel with
  | zero => rfl
  | succ n => simp [advanceAux, h]

/-- Letting the clock advance changes nothing when no timer is due. -/
theorem advance_of_no_due (cfg : HoverCfg) (now : Nat) (s : HoverState)
    (h : dueTimers now s = []) : advance cfg now s = s :=
  advanceAux_of_fireOne_none cfg now (timerWeight s) s
    (by simp [fireOne, h, pickEarliest])

/-- C3: from the fully visible popup, leaving the overlay at t = 2000 ms
and re-entering it at t = 2100 ms — inside the 200 ms close window — leaves
a close timeout pending that nothing can cancel (its handle was never
stored): the re-entry restores the visible flags, yet when the timeout
fires the popup is unmounted (`showPopup` false, geometry cleared) even
though the pointer is on the overlay, contradicting the claim that the
intervening enter cancels the close and the popup stays mounted. -/
theorem portal_reenter_does_not_cancel_close :
    (runHover cfg0 hoverInit reenterTrace).showPopup = true ∧
    (runHover cfg0 hoverInit reenterTrace).popupVisible = true ∧
    (runHover cfg0 hoverInit reenterTrace).closeTimeouts = [2200] ∧
    (advance cfg0 2400 (runHover cfg0 hoverInit reenterTrace)).showPopup =
      false ∧
    (advance cfg0 2400 (runHover cfg0 hoverInit reenterTrace)).popupRect =
      none ∧
    (advance cfg0 2400 (runHover cfg0 hoverInit reenterTrace)).isHovered =
      true ∧
    (advance cfg0 2400 (runHover cfg0 hoverInit reenterTrace)).popupVisible =
      true :=
  ⟨rfl, rfl, rfl, rfl, rfl, rfl, rfl⟩

/-- C4: the unmount cleanup clears only the stored show and animation
timeout refs; the anonymous 200 ms close timeout armed by a portal leave
2 s into the run has no stored handle, survives the cleanup, and fires
afterwards, flipping `showPopup` off and clearing the geometry on the
destroyed component — contradicting the claim that no timer armed before
unmount can fire afterwards. -/
theorem close_timer_fires_after_unmount :
    (unmountCleanup (advance cfg0 2050
        (runHover cfg0 hoverInit unmountTrace))).hoverTimeout = none ∧
    (unmountCleanup (advance cfg0 2050
        (runHover cfg0 hoverInit unmountTrace))).animationTimeout = none ∧
    (unmountCleanup (advance cfg0 2050
        (runHover cfg0 hoverInit unmountTrace))).closeTimeouts = [2200] ∧
    (unmountCleanup (advance cfg0 2050
        (runHover cfg0 hoverInit unmountTrace))).showPopup = true ∧
    (advance cfg0 2300 (unmountCleanup (advance cfg0 2050
        (runHover cfg0 hoverInit unmountTrace)))).showPopup = false ∧
    (advance cfg0 2300 (unmountCleanup (advance cfg0 2050
        (runHover cfg0 hoverInit unmountTrace)))).popupRect = none :=
  ⟨rfl, rfl, rfl, rfl, rfl, rfl⟩

/-- C5: once the popup has appeared (`showPopup` is set, which covers both
the just-shown and the animated-in visible states), a pointer leave on the
card is a complete no-op: the handler early-returns, so no flag, no
geometry and no timer changes — only an overlay leave can start closing. -/
theorem card_leave_ignored_when_popup_up (t : Nat) (s : HoverState)
    (h : s.showPopup = true) :
    stepEvent t HoverEvent.hoverOut s = s := by
  simp [stepEvent, handleHoverOut, h]

/-- C5 witness: leaving the card with the popup visible changes nothing. -/
theorem card_leave_ignored_when_popup_up_witness :
    stepEvent 2500 HoverEvent.hoverOut shownSample = shownSample :=
  card_leave_ignored_when_popup_up 2500 shownSample rfl

/-- C9: entering the card and leaving it again before the 1800 ms show
delay elapses never shows the popup: after the enter no popup is shown and
no geometry captured, the leave cancels the show timer and returns the
machine to the idle state, and no later clock advance can change anything
(no timer remains). -/
theorem early_card_leave_never_shows_popup (cfg : HoverCfg) (t0 t1 : Nat)
    (hlt : t1 < t0 + 1800) :
    (runHover cfg hoverInit [(t0, HoverEvent.hoverIn)]).showPopup = false ∧
    (runHover cfg hoverInit [(t0, HoverEvent.hoverIn)]).popupVisible = false ∧
    (runHover cfg hoverInit [(t0, HoverEvent.hoverIn)]).popupRect = none ∧
    runHover cfg hoverInit
        [(t0, HoverEvent.hoverIn), (t1, HoverEvent.hoverOut)] = hoverInit ∧
    (∀ t2, advance cfg t2 (runHover cfg hoverInit
        [(t0, HoverEvent.hoverIn), (t1, HoverEvent.hoverOut)]) =
      runHover cfg hoverInit
        [(t0, HoverEvent.hoverIn), (t1, HoverEvent.hoverOut)]) := by
  have hnle : ¬ (t0 + 1800 ≤ t1) := Nat.not_le.mpr hlt
  have hdue : dueTimers t1 (handleHoverIn t0 hoverInit) = [] := by
    simp [dueTimers, handleHoverIn, hoverInit, hnle]
  have hrun : runHover cfg hoverInit
      [(t0, HoverEvent.hoverIn), (t1, HoverEvent.hoverOut)] = hoverInit := by
    simp only [runHover, stepEvent]
    rw [advance_of_no_due cfg t0 hoverInit rfl,
        advance_of_no_due cfg t1 (handleHoverIn t0 hoverInit) hdue]
    rfl
  refine ⟨rfl, rfl, rfl, hrun, fun t2 => by
    rw [hrun]
    exact advance_of_no_due cfg t2 hoverInit rfl⟩

/-- C9 witness: enter at 0 ms, leave at 1000 ms — the machine is back to
idle. -/
theorem early_card_leave_never_shows_popup_witness :
    runHover cfg0 hoverInit
        [(0, HoverEvent.hoverIn), (1000, HoverEvent.hoverOut)] = hoverInit :=
  (early_card_leave_never_shows_popup cfg0 0 1000 (by decide)).2.2.2.1

end Mighty
